import Mathlib

/-!
Verification of the `SequenceLabelField` component
(src/allennlp/data/fields/sequence_label_field.py).

Shallow embedding notes:
* Python's dynamically typed label list (`Union[List[str], List[int]]`, tested
  element-wise with `isinstance(x, int)`) is a list of a sum type `Label`.
* The companion `SequenceField` is only ever used through `sequence_length()`,
  so it is embedded as its reported length; Python's `None` companion (as passed
  by `empty_field`) is `Option.none`, and attribute access on `None` is the
  `attributeError` outcome.
* Python exceptions are the error side of `Except Err`; the frozen error value
  carries the data the exception message carries (both lengths for the
  `ConfigurationError` raised on a length mismatch).
* Mutation is explicit state passing: `index` returns the updated field,
  `count_vocab_items` returns the updated counter (a total function
  `String → Label → Nat`, matching the `defaultdict(int)`-backed counter), and
  the remaining operations return no field, which is how the embedding renders
  the fact that they mutate nothing.
-/

/-- One raw label: Python stores either a string tag or an already-resolved
integer id in the same list. -/
inductive Label where
  | str (s : String)
  | int (i : Int)
deriving DecidableEq, Repr

/-- Embedding of Python's `isinstance(x, int)` test on a label. -/
def Label.isInt : Label → Bool
  | .str _ => false
  | .int _ => true

/-- The failure outcomes of the component, each carrying what the Python
exception's message carries. -/
inductive Err where
  | attributeError
  | configurationError (labelLen seqLen : Nat)
  | keyError
  | unresolvedMaterialization
  | insufficientPadding (actual requested : Nat)
deriving DecidableEq, Repr

/-- State of one `SequenceLabelField` instance: the four attributes set by
`__init__` (`_labels`, `_sequence_field` as its reported length,
`_label_namespace`, `_indexed_labels`). -/
structure SequenceLabelField where
  labels : List Label
  sequence_field : Option Nat
  label_namespace : String
  indexed_labels : Option (List Label)
deriving DecidableEq, Repr

/-- Embedding of `SequenceLabelField.__init__`.  The namespace-suffix warning
is informational only and affects no state, so it is not modelled.  The length
guard evaluates `sequence_field.sequence_length()` unconditionally, so a `None`
companion raises `AttributeError` before anything else; a length mismatch
raises `ConfigurationError` carrying both lengths; otherwise the instance is
built, pre-resolved (`_indexed_labels = labels`) exactly when every element is
an integer. -/
def SequenceLabelField.init (labels : List Label) (sequence_field : Option Nat)
    (label_namespace : String) : Except Err SequenceLabelField :=
  match sequence_field with
  | none => .error .attributeError
  | some m =>
      if labels.length ≠ m then
        .error (.configurationError labels.length m)
      else
        .ok ⟨labels, some m, label_namespace,
             if labels.all Label.isInt then some labels else none⟩

/-- Embedding of `SequenceLabelField.count_vocab_items`: when the labels are
not yet indexed, every raw label's count in this field's namespace is
incremented; otherwise the counter is untouched. -/
def SequenceLabelField.count_vocab_items (f : SequenceLabelField)
    (counter : String → Label → Nat) : String → Label → Nat :=
  match f.indexed_labels with
  | some _ => counter
  | none =>
      f.labels.foldl
        (fun c label => fun n l =>
          if n = f.label_namespace ∧ l = label then c n l + 1 else c n l)
        counter

/-- Embedding of `SequenceLabelField.index`: a no-op when `_indexed_labels` is
already present, otherwise every raw label is resolved through
`vocab.get_token_index(label, self._label_namespace)`. -/
def SequenceLabelField.index (f : SequenceLabelField)
    (vocab : Label → String → Int) : SequenceLabelField :=
  match f.indexed_labels with
  | some _ => f
  | none =>
      ⟨f.labels, f.sequence_field, f.label_namespace,
       some (f.labels.map fun l => Label.int (vocab l f.label_namespace))⟩

/-- Embedding of `SequenceLabelField.get_padding_lengths`: returns the
one-entry mapping keyed `"num_tokens"` holding
`self._sequence_field.sequence_length()` (an `AttributeError` when the
companion is `None`). -/
def SequenceLabelField.get_padding_lengths (f : SequenceLabelField) :
    Except Err (List (String × Nat)) :=
  match f.sequence_field with
  | none => .error .attributeError
  | some m => .ok [("num_tokens", m)]

/-- Modelled from the spec: `pad_sequence_to_length` is imported from
`allennlp.common.util`, which is not under src/, so its behaviour is taken from
the spec's materialization contract: with the sequence resolved and the desired
length at least the sequence length, the output is the resolved ids followed by
the pad sentinel `0`; a desired length below the sequence length is the fatal
`InsufficientPaddingError` (never a silent truncation); an absent (`None`)
sequence is the fatal null/absent-value `UnresolvedMaterializationError`. -/
def pad_sequence_to_length (sequence : Option (List Label))
    (desired_length : Nat) : Except Err (List Label) :=
  match sequence with
  | none => .error .unresolvedMaterialization
  | some xs =>
      if desired_length < xs.length then
        .error (.insufficientPadding xs.length desired_length)
      else
        .ok (xs ++ List.replicate (desired_length - xs.length) (Label.int 0))

/-- Embedding of `SequenceLabelField.as_array`: reads
`padding_lengths['num_tokens']` (a `KeyError` when absent) and pads
`_indexed_labels` to that length. -/
def SequenceLabelField.as_array (f : SequenceLabelField)
    (padding_lengths : List (String × Nat)) : Except Err (List Label) :=
  match padding_lengths.lookup "num_tokens" with
  | none => .error .keyError
  | some k => pad_sequence_to_length f.indexed_labels k

/-- Embedding of `SequenceLabelField.empty_field`: it constructs
`SequenceLabelField([], None)` (default namespace `'labels'`) and then
overwrites `_indexed_labels` with `[]`. -/
def SequenceLabelField.empty_field : Except Err SequenceLabelField :=
  match SequenceLabelField.init [] none "labels" with
  | .error e => .error e
  | .ok f => .ok ⟨f.labels, f.sequence_field, f.label_namespace, some []⟩

/-- Inversion of a successful construction: the length guard passed and the
four attributes are exactly those `__init__` stores. -/
theorem init_ok_iff (L : List Label) (M : Nat) (ns : String)
    (f : SequenceLabelField) :
    SequenceLabelField.init L (some M) ns = .ok f ↔
      L.length = M ∧
      f = ⟨L, some M, ns, if L.all Label.isInt then some L else none⟩ := by
  have hred : SequenceLabelField.init L (some M) ns =
      if L.length ≠ M then .error (.configurationError L.length M)
      else .ok ⟨L, some M, ns,
                if L.all Label.isInt then some L else none⟩ := rfl
  rw [hred]
  by_cases h : L.length = M
  · simp only [h, ne_eq, not_true_eq_false, if_false, Except.ok.injEq, true_and]
    exact eq_comm
  · simp [h]

/-- C2: construction with a companion reporting length `M` succeeds iff the
label list has length `M`; on a mismatch it fails with the
`ConfigurationError` carrying both lengths. -/
theorem C2_construction_iff (L : List Label) (M : Nat) (ns : String) :
    ((∃ f, SequenceLabelField.init L (some M) ns = .ok f) ↔ L.length = M) ∧
    (L.length ≠ M →
      SequenceLabelField.init L (some M) ns =
        .error (.configurationError L.length M)) := by
  unfold SequenceLabelField.init
  by_cases h : L.length = M
  · simp [h]
  · simp [h]

/-- Witness for C2 at the spec's own example: one label against a companion of
length two fails with the mismatch error referencing 1 and 2. -/
theorem C2_construction_iff_witness :
    SequenceLabelField.init [Label.str "X"] (some 2) "labels" =
      .error (.configurationError 1 2) :=
  (C2_construction_iff [Label.str "X"] 2 "labels").2 (by decide)

/-- C1: `empty_field()` does not succeed: the constructor call
`SequenceLabelField([], None)` it performs evaluates
`sequence_field.sequence_length()` on `None` and so raises `AttributeError`
before the length guard can be bypassed; the line overwriting
`_indexed_labels` is never reached. -/
theorem C1_empty_field_raises :
    SequenceLabelField.empty_field = .error Err.attributeError := rfl

/-- Auxiliary: the single-entry padding mapping yields its value under the
`"num_tokens"` key. -/
theorem lookup_num_tokens_single (K : Nat) :
    (([("num_tokens", K)] : List (String × Nat)).lookup "num_tokens") =
      some K := rfl

/-- Auxiliary: `index` never changes the raw labels, whatever the state. -/
theorem index_preserves_labels (f : SequenceLabelField)
    (v : Label → String → Int) : (f.index v).labels = f.labels := by
  unfold SequenceLabelField.index
  split <;> rfl

/-- C3: materializing with a requested `"num_tokens"` value strictly below the
resolved length fails with the insufficient-padding error instead of silently
truncating. -/
theorem C3_no_silent_truncation (f : SequenceLabelField) (xs : List Label)
    (K : Nat) (h : f.indexed_labels = some xs) (hK : K < xs.length) :
    f.as_array [("num_tokens", K)] =
      .error (.insufficientPadding xs.length K) := by
  unfold SequenceLabelField.as_array
  rw [lookup_num_tokens_single]
  unfold pad_sequence_to_length
  rw [h]
  simp [hK]

/-- Witness for C3: one resolved id padded to length 0 is refused. -/
theorem C3_no_silent_truncation_witness :
    SequenceLabelField.as_array
        ⟨[Label.str "a"], some 1, "labels", some [Label.int 5]⟩
        [("num_tokens", 0)] = .error (.insufficientPadding 1 0) :=
  C3_no_silent_truncation
    ⟨[Label.str "a"], some 1, "labels", some [Label.int 5]⟩
    [Label.int 5] 0 rfl (by decide)

/-- C4: materializing with `"num_tokens" = K ≥ N` yields exactly the resolved
ids followed by `K − N` copies of the pad sentinel `0`: the output has length
`K`, its first `N` entries are the resolved ids in order, and the rest is all
the sentinel. -/
theorem C4_padding_correct (f : SequenceLabelField) (xs : List Label) (K : Nat)
    (h : f.indexed_labels = some xs) (hK : xs.length ≤ K) :
    f.as_array [("num_tokens", K)] =
      .ok (xs ++ List.replicate (K - xs.length) (Label.int 0)) ∧
    (xs ++ List.replicate (K - xs.length) (Label.int 0)).length = K ∧
    (xs ++ List.replicate (K - xs.length) (Label.int 0)).take xs.length = xs ∧
    (xs ++ List.replicate (K - xs.length) (Label.int 0)).drop xs.length =
      List.replicate (K - xs.length) (Label.int 0) := by
  refine ⟨?_, ?_, by simp, by simp⟩
  · unfold SequenceLabelField.as_array
    rw [lookup_num_tokens_single]
    unfold pad_sequence_to_length
    rw [h]
    simp [Nat.not_lt.mpr hK]
  · simp
    omega

/-- Witness for C4 at the spec's own example shape: one id padded to three. -/
theorem C4_padding_correct_witness :
    SequenceLabelField.as_array
        ⟨[Label.str "a"], some 1, "labels", some [Label.int 5]⟩
        [("num_tokens", 3)] =
      .ok ([Label.int 5] ++ List.replicate (3 - 1) (Label.int 0)) :=
  (C4_padding_correct
    ⟨[Label.str "a"], some 1, "labels", some [Label.int 5]⟩
    [Label.int 5] 3 rfl (by decide)).1

/-- C5: if every raw label is an integer, construction pre-resolves the
instance (`_indexed_labels` is the raw list itself) and `count_vocab_items`
returns the frequency counter unchanged. -/
theorem C5_preresolved_skips_vocab (L : List Label) (M : Nat) (ns : String)
    (f : SequenceLabelField) (c : String → Label → Nat)
    (hall : L.all Label.isInt = true)
    (h : SequenceLabelField.init L (some M) ns = .ok f) :
    f.indexed_labels = some L ∧ f.count_vocab_items c = c := by
  obtain ⟨-, rfl⟩ := (init_ok_iff L M ns f).1 h
  refine ⟨by simp [hall], ?_⟩
  unfold SequenceLabelField.count_vocab_items
  simp [hall]

/-- Witness for C5: a single pre-resolved integer label. -/
theorem C5_preresolved_skips_vocab_witness :
    SequenceLabelField.indexed_labels
        ⟨[Label.int 3], some 1, "labels", some [Label.int 3]⟩ =
      some [Label.int 3] ∧
    SequenceLabelField.count_vocab_items
        ⟨[Label.int 3], some 1, "labels", some [Label.int 3]⟩
        (fun _ _ => 0) = fun _ _ => 0 :=
  C5_preresolved_skips_vocab [Label.int 3] 1 "labels"
    ⟨[Label.int 3], some 1, "labels", some [Label.int 3]⟩
    (fun _ _ => 0) rfl rfl

/-- C6: after `index`, the resolved ids are present with length `N`, and a
second `index` with the same vocabulary is a no-op. -/
theorem C6_index_idempotent (L : List Label) (M : Nat) (ns : String)
    (f : SequenceLabelField) (v : Label → String → Int)
    (h : SequenceLabelField.init L (some M) ns = .ok f) :
    (∃ ids, (f.index v).indexed_labels = some ids ∧ ids.length = L.length) ∧
    (f.index v).index v = f.index v := by
  obtain ⟨-, rfl⟩ := (init_ok_iff L M ns f).1 h
  by_cases hall : L.all Label.isInt = true
  · exact ⟨⟨L, by simp [SequenceLabelField.index, hall], rfl⟩,
      by simp [SequenceLabelField.index, hall]⟩
  · refine ⟨⟨L.map fun l => Label.int (v l ns), ?_, by simp⟩, ?_⟩ <;>
      simp [SequenceLabelField.index, hall]

/-- Witness for C6: a single string label indexed twice. -/
theorem C6_index_idempotent_witness :
    (∃ ids,
      (SequenceLabelField.index ⟨[Label.str "B"], some 1, "labels", none⟩
          (fun _ _ => 4)).indexed_labels = some ids ∧
      ids.length = ([Label.str "B"] : List Label).length) ∧
    SequenceLabelField.index
        (SequenceLabelField.index ⟨[Label.str "B"], some 1, "labels", none⟩
          (fun _ _ => 4)) (fun _ _ => 4) =
      SequenceLabelField.index ⟨[Label.str "B"], some 1, "labels", none⟩
        (fun _ _ => 4) :=
  C6_index_idempotent [Label.str "B"] 1 "labels"
    ⟨[Label.str "B"], some 1, "labels", none⟩ (fun _ _ => 4) rfl

/-- C7: an instance whose labels are not all integers stays unresolved after
construction, and materializing it before `index` fails with the
null/absent-value error, never an array of pad zeros. -/
theorem C7_unresolved_materialization (L : List Label) (M K : Nat)
    (ns : String) (f : SequenceLabelField)
    (hstr : L.all Label.isInt = false)
    (h : SequenceLabelField.init L (some M) ns = .ok f) :
    f.as_array [("num_tokens", K)] = .error .unresolvedMaterialization := by
  obtain ⟨-, rfl⟩ := (init_ok_iff L M ns f).1 h
  unfold SequenceLabelField.as_array
  rw [lookup_num_tokens_single]
  unfold pad_sequence_to_length
  simp [hstr]

/-- Witness for C7: one string label materialized before indexing. -/
theorem C7_unresolved_materialization_witness :
    SequenceLabelField.as_array ⟨[Label.str "B"], some 1, "labels", none⟩
        [("num_tokens", 5)] = .error .unresolvedMaterialization :=
  C7_unresolved_materialization [Label.str "B"] 1 5 "labels"
    ⟨[Label.str "B"], some 1, "labels", none⟩ rfl rfl

/-- C8: on every successfully constructed instance, `get_padding_lengths`
returns exactly the one-entry mapping from `"num_tokens"` to this instance's
own label count (the companion's reported length, which the construction guard
forces to equal it). -/
theorem C8_get_padding_lengths (L : List Label) (M : Nat) (ns : String)
    (f : SequenceLabelField)
    (h : SequenceLabelField.init L (some M) ns = .ok f) :
    f.get_padding_lengths = .ok [("num_tokens", f.labels.length)] := by
  obtain ⟨hlen, rfl⟩ := (init_ok_iff L M ns f).1 h
  simp [SequenceLabelField.get_padding_lengths, hlen]

/-- Witness for C8: three labels report `{"num_tokens": 3}`. -/
theorem C8_get_padding_lengths_witness :
    SequenceLabelField.get_padding_lengths
        ⟨[Label.str "B-PER", Label.str "I-PER", Label.str "O"], some 3,
          "labels", none⟩ =
      .ok [("num_tokens",
        (SequenceLabelField.labels
          ⟨[Label.str "B-PER", Label.str "I-PER", Label.str "O"], some 3,
            "labels", none⟩).length)] :=
  C8_get_padding_lengths [Label.str "B-PER", Label.str "I-PER", Label.str "O"]
    3 "labels"
    ⟨[Label.str "B-PER", Label.str "I-PER", Label.str "O"], some 3,
      "labels", none⟩ rfl

/-- C9: the raw labels fixed at construction are never modified afterwards:
the accessor returns them unchanged, and `index` (the only operation that
returns a new field state — `count_vocab_items` returns only the counter and
`get_padding_lengths`/`as_array` return no field at all in this explicit-state
embedding) preserves them, even applied repeatedly. -/
theorem C9_labels_immutable (L : List Label) (M : Nat) (ns : String)
    (f : SequenceLabelField) (v w : Label → String → Int)
    (h : SequenceLabelField.init L (some M) ns = .ok f) :
    f.labels = L ∧ (f.index v).labels = L ∧
    ((f.index v).index w).labels = L := by
  obtain ⟨-, rfl⟩ := (init_ok_iff L M ns f).1 h
  refine ⟨rfl, ?_, ?_⟩
  · rw [index_preserves_labels]
  · rw [index_preserves_labels, index_preserves_labels]

/-- Witness for C9: a string label before and after two indexing passes. -/
theorem C9_labels_immutable_witness :
    SequenceLabelField.labels ⟨[Label.str "B"], some 1, "labels", none⟩ =
      [Label.str "B"] ∧
    (SequenceLabelField.index ⟨[Label.str "B"], some 1, "labels", none⟩
        (fun _ _ => 4)).labels = [Label.str "B"] ∧
    (SequenceLabelField.index
        (SequenceLabelField.index ⟨[Label.str "B"], some 1, "labels", none⟩
          (fun _ _ => 4)) (fun _ _ => 7)).labels = [Label.str "B"] :=
  C9_labels_immutable [Label.str "B"] 1 "labels"
    ⟨[Label.str "B"], some 1, "labels", none⟩
    (fun _ _ => 4) (fun _ _ => 7) rfl

/-- Auxiliary: the fold performed by `count_vocab_items` adds, at every
(namespace, label) cell, the number of occurrences of that label in the list
when the namespace matches, and nothing elsewhere. -/
theorem count_foldl_increment (L : List Label) (ns : String)
    (c : String → Label → Nat) (n : String) (x : Label) :
    (L.foldl
      (fun c label => fun n l =>
        if n = ns ∧ l = label then c n l + 1 else c n l) c) n x =
      c n x + (if n = ns then L.count x else 0) := by
  induction L generalizing c with
  | nil => simp
  | cons hd tl ih =>
      rw [List.foldl_cons, ih]
      by_cases h1 : n = ns <;> by_cases h2 : x = hd <;>
        simp [h1, h2, List.count_cons] <;> omega

/-- C10: pre-resolution is exactly the all-integers predicate: an empty label
list is pre-resolved at construction (`_indexed_labels = []`), while a list
with at least one non-integer element stays entirely unresolved, so
`count_vocab_items` counts every element (integer elements included) in the
field's namespace and `index` resolves every element through the
vocabulary. -/
theorem C10_preresolution_predicate (L : List Label) (M : Nat)
    (ns ns2 : String) (x : Label) (e f : SequenceLabelField)
    (v : Label → String → Int) (c : String → Label → Nat)
    (he : SequenceLabelField.init [] (some 0) ns = .ok e)
    (hmix : L.all Label.isInt = false)
    (h : SequenceLabelField.init L (some M) ns = .ok f) :
    e.indexed_labels = some [] ∧
    f.indexed_labels = none ∧
    f.count_vocab_items c ns x = c ns x + L.count x ∧
    (ns2 ≠ ns → f.count_vocab_items c ns2 x = c ns2 x) ∧
    (f.index v).indexed_labels = some (L.map fun l => Label.int (v l ns)) := by
  obtain ⟨-, rfl⟩ := (init_ok_iff [] 0 ns e).1 he
  obtain ⟨-, rfl⟩ := (init_ok_iff L M ns f).1 h
  refine ⟨rfl, by simp [hmix], ?_, ?_, ?_⟩
  · unfold SequenceLabelField.count_vocab_items
    simp only [hmix, Bool.false_eq_true, if_false]
    rw [count_foldl_increment]
    simp
  · intro hne
    unfold SequenceLabelField.count_vocab_items
    simp only [hmix, Bool.false_eq_true, if_false]
    rw [count_foldl_increment]
    simp [hne]
  · simp [SequenceLabelField.index, hmix]

/-- Witness for C10: a mixed list (one string, one integer) has its integer
element counted once in the field's namespace. -/
theorem C10_preresolution_predicate_witness :
    SequenceLabelField.count_vocab_items
        ⟨[Label.str "B", Label.int 7], some 2, "labels", none⟩
        (fun _ _ => 0) "labels" (Label.int 7) = 1 := by
  have h := C10_preresolution_predicate [Label.str "B", Label.int 7] 2
    "labels" "words" (Label.int 7) ⟨[], some 0, "labels", some []⟩
    ⟨[Label.str "B", Label.int 7], some 2, "labels", none⟩
    (fun _ _ => 9) (fun _ _ => 0) rfl rfl rfl
  rw [h.2.2.1]
  decide
